import Mathlib

/-!
Verification development for the NIFTY50 stock condition-based recommender
(src/app.py).  Prices are modelled as exact rationals (ℚ); Python's
`round(x, 2)` (round-half-to-even on the value) is modelled by
`roundHalfEven` / `roundQ2`.  Fallible external data access is modelled by
explicit `Except` / `Option` values.
-/

namespace StockApp

/-- Round-half-to-even to the nearest integer, as Python's builtin `round`
behaves on exactly representable values. -/
def roundHalfEven (x : ℚ) : ℤ :=
  if x - ⌊x⌋ < 1/2 then ⌊x⌋
  else if 1/2 < x - ⌊x⌋ then ⌊x⌋ + 1
  else if ⌊x⌋ % 2 = 0 then ⌊x⌋ else ⌊x⌋ + 1

/-- Python's `round(x, 2)` from the source: round to two decimal places. -/
def roundQ2 (x : ℚ) : ℚ := (roundHalfEven (x * 100) : ℚ) / 100

/-- One OHLC bar, the pandas row used by `analyze_stock`
(fields `data['Open']`, `data['High']`, `data['Low']`, `data['Close']`). -/
structure Bar where
  Open : ℚ
  High : ℚ
  Low : ℚ
  Close : ℚ
deriving DecidableEq, Repr

/-- The analysis result dictionary built by `analyze_stock`
(src/app.py lines 101-114), restricted to the analytic fields; the
TradingView URL string is modelled separately by `get_tradingview_url`. -/
structure Signal where
  symbol : String
  current_price : ℚ
  recommendation : String
  stop_loss : Option ℚ
  target : Option ℚ
  condition : String
deriving DecidableEq, Repr

/-- The body of `analyze_stock` after a successful fetch
(src/app.py lines 82-114): classify the bar and derive the levels. -/
def analyze_stock_bar (symbol : String) (data : Bar) : Signal :=
  let current_price := roundQ2 data.Close
  if data.Open = data.High then
    { symbol := symbol
      current_price := current_price
      recommendation := "Sell"
      stop_loss := some (roundQ2 (current_price * (102/100)))
      target := some (roundQ2 (current_price * (96/100)))
      condition := "Open=High (Bearish)" }
  else if data.Open = data.Low then
    { symbol := symbol
      current_price := current_price
      recommendation := "Buy"
      stop_loss := some (roundQ2 (current_price * (98/100)))
      target := some (roundQ2 (current_price * (104/100)))
      condition := "Open=Low (Bullish)" }
  else
    { symbol := symbol
      current_price := current_price
      recommendation := "Neutral"
      stop_loss := none
      target := none
      condition := "No clear pattern" }

/-- Function `get_stock_data` (src/app.py lines 22-32).  The upstream
`yf.Ticker(...).history(period)` call is modelled by its outcome: either a
raised exception (`Except.error`) or the list of bars it returned.  The
source returns `None` when the history is empty or any exception is raised,
and otherwise the last row (`hist.iloc[-1]`). -/
def get_stock_data (upstream : Except String (List Bar)) : Option Bar :=
  match upstream with
  | .error _ => none
  | .ok hist => hist.getLast?

/-- One horizontal-line drawing from `get_tradingview_url`
(src/app.py lines 41-69).  `text` holds the static part of the f-string
label; the interpolated number is the `price` field itself. -/
structure PriceLine where
  price : ℚ
  color : String
  linestyle : ℕ
  linewidth : ℕ
  text : String
deriving DecidableEq, Repr

/-- The drawings list built by `get_tradingview_url`
(src/app.py lines 35-74): a stop-loss line if present, then a target line
if present, then always the current-price line.  The URL-encoding of this
list into the returned URL string is presentation glue and not modelled. -/
def get_tradingview_url (current_price : ℚ) (stop_loss target : Option ℚ) :
    List PriceLine :=
  (match stop_loss with
   | some sl => [⟨sl, "#FF0000", 2, 2, "SL: "⟩]
   | none => []) ++
  (match target with
   | some tg => [⟨tg, "#00FF00", 2, 2, "Target: "⟩]
   | none => []) ++
  [⟨current_price, "#0000FF", 0, 1, "Current: "⟩]

/-- Function `analyze_stock` (src/app.py lines 77-114): fetch, return `none` on
fetch failure, otherwise classify.  The fetch dependency is passed in as a
function from symbol to the optional most recent bar. -/
def analyze_stock (fetch : String → Option Bar) (symbol : String) :
    Option Signal :=
  (fetch symbol).map (analyze_stock_bar symbol)

/-- The data accumulated by `main`'s per-symbol loop
(src/app.py lines 129-138).  The source keeps only the `results` list;
a symbol whose analysis returns `None` is skipped and no failure record of
any kind is appended anywhere, so `failures` is always empty. -/
structure Report where
  signals : List Signal
  failures : List (String × String)
deriving DecidableEq, Repr

/-- The per-symbol loop of `main` (src/app.py lines 129-138): iterate the
universe in order, append each non-`None` analysis result to `signals`,
continue past failures, record nothing for them. -/
def main_report (fetch : String → Option Bar) (univ : List String) :
    Report :=
  { signals := univ.filterMap (analyze_stock fetch)
    failures := [] }

/-- The two terminal outcomes of `main` after the loop
(src/app.py lines 140-183): the early-return branch behind
`st.warning("No valid stock data could be fetched...")` when `results` is
empty, and the normal rendering path otherwise. -/
inductive MainOutcome where
  | emptyUniverse : MainOutcome
  | completed : Report → MainOutcome
deriving DecidableEq, Repr

/-- Control flow of `main` after the loop (src/app.py lines 140-145). -/
def main_run (fetch : String → Option Bar) (univ : List String) :
    MainOutcome :=
  let r := main_report fetch univ
  if r.signals.isEmpty then .emptyUniverse else .completed r

/-- The actionable view (src/app.py line 148):
`results_df[results_df['Recommendation'].isin(['Buy', 'Sell'])]`. -/
def actionable (r : Report) : List Signal :=
  r.signals.filter fun s =>
    s.recommendation == "Buy" || s.recommendation == "Sell"

/-! ### Float model with a non-finite value

`analyze_stock` receives pandas float64 prices; to settle claims about
non-finite inputs, prices are modelled as either a finite rational or the
single non-finite value `nan`.  Multiplication propagates `nan`, rounding
of `nan` is `nan`, and any comparison with `nan` is false, as for IEEE
floats over the operations the source actually uses. -/
inductive PF where
  | fin : ℚ → PF
  | nan : PF
deriving DecidableEq, Repr

/-- IEEE-style equality test: comparisons involving `nan` are false. -/
def PF.eqb : PF → PF → Bool
  | .fin a, .fin b => a == b
  | _, _ => false

/-- Multiplication with `nan` propagation. -/
def PF.mul : PF → PF → PF
  | .fin a, .fin b => .fin (a * b)
  | _, _ => .nan

/-- Rounding `round(x, 2)` on the float model: `round` of `nan` is `nan`. -/
def roundPF2 : PF → PF
  | .fin a => .fin (roundQ2 a)
  | .nan => .nan

/-- A bar whose prices may be non-finite. -/
structure BarF where
  Open : PF
  High : PF
  Low : PF
  Close : PF
deriving DecidableEq, Repr

/-- Result dictionary of `analyze_stock` over the float model. -/
structure SignalF where
  symbol : String
  current_price : PF
  recommendation : String
  stop_loss : Option PF
  target : Option PF
  condition : String
deriving DecidableEq, Repr

/-- The body of `analyze_stock` after a successful fetch
(src/app.py lines 82-114) over the float model, wrapped in `Except` to
expose where an `AnalysisError` could be raised: the source contains no
finiteness check and no raise, so every branch returns `Except.ok`. -/
def analyze_stock_barF (symbol : String) (data : BarF) :
    Except String SignalF :=
  let current_price := roundPF2 data.Close
  if data.Open.eqb data.High then
    .ok { symbol := symbol
          current_price := current_price
          recommendation := "Sell"
          stop_loss := some (roundPF2 (current_price.mul (.fin (102/100))))
          target := some (roundPF2 (current_price.mul (.fin (96/100))))
          condition := "Open=High (Bearish)" }
  else if data.Open.eqb data.Low then
    .ok { symbol := symbol
          current_price := current_price
          recommendation := "Buy"
          stop_loss := some (roundPF2 (current_price.mul (.fin (98/100))))
          target := some (roundPF2 (current_price.mul (.fin (104/100))))
          condition := "Open=Low (Bullish)" }
  else
    .ok { symbol := symbol
          current_price := current_price
          recommendation := "Neutral"
          stop_loss := none
          target := none
          condition := "No clear pattern" }

/-- Modelled from the spec (§4.2 rule 1): the claimed sell-side stop loss
computed from the raw, unrounded close.  Comparison definition for the
refinement claim about level computation; the source computes from
`current_price` instead. -/
def spec_sell_stop_loss (close : ℚ) : ℚ := roundQ2 (close * (102/100))

/-- Modelled from the spec (§4.2 rule 1): the claimed sell-side target
computed from the raw, unrounded close. -/
def spec_sell_target (close : ℚ) : ℚ := roundQ2 (close * (96/100))

/-- A concrete 3-symbol universe's fetch behaviour: succeeds for "A" and
"C", fails for "B". -/
def fetch3 : String → Option Bar :=
  fun s => if s = "B" then none else some ⟨100, 100, 95, 98⟩

-- smoke tests (spec §8 worked examples)
example : (analyze_stock_bar "X" ⟨100, 100, 95, 98⟩).recommendation = "Sell" := by
  norm_num [analyze_stock_bar]
example : (analyze_stock_bar "X" ⟨100, 100, 95, 98⟩).stop_loss = some (9996/100) := by
  norm_num [analyze_stock_bar, roundQ2, roundHalfEven]
example : (analyze_stock_bar "X" ⟨100, 100, 95, 98⟩).target = some (9408/100) := by
  norm_num [analyze_stock_bar, roundQ2, roundHalfEven]
example : (analyze_stock_bar "X" ⟨95, 100, 95, 98⟩).recommendation = "Buy" := by
  norm_num [analyze_stock_bar]
example : (analyze_stock_bar "X" ⟨97, 100, 95, 98⟩).recommendation = "Neutral" := by
  norm_num [analyze_stock_bar]
example : roundHalfEven (51/2) = 26 := by norm_num [roundHalfEven]
example : roundHalfEven (49/2) = 24 := by norm_num [roundHalfEven]
example : roundQ2 (97951/10000) = 98/10 := by norm_num [roundQ2, roundHalfEven]

/-! ### Bounds for round-half-to-even -/

theorem roundHalfEven_le (x : ℚ) : (roundHalfEven x : ℚ) ≤ x + 1/2 := by
  have h1 := Int.floor_le x
  have h2 := Int.lt_floor_add_one x
  unfold roundHalfEven
  split_ifs with ha hb hc
  · linarith
  · push_cast
    linarith
  · linarith
  · rw [not_lt] at ha
    push_cast
    linarith

theorem le_roundHalfEven (x : ℚ) : x - 1/2 ≤ (roundHalfEven x : ℚ) := by
  have h1 := Int.floor_le x
  have h2 := Int.lt_floor_add_one x
  unfold roundHalfEven
  split_ifs with ha hb hc
  · linarith
  · push_cast
    linarith
  · rw [not_lt] at ha hb
    linarith
  · rw [not_lt] at ha hb
    push_cast
    linarith

theorem lt_roundHalfEven_int (k : ℤ) (x : ℚ) (h : (k : ℚ) + 1/2 < x) :
    k < roundHalfEven x := by
  have h1 := le_roundHalfEven x
  have : (k : ℚ) < (roundHalfEven x : ℚ) := by linarith
  exact_mod_cast this

theorem roundHalfEven_lt_int (k : ℤ) (x : ℚ) (h : x + 1/2 < (k : ℚ)) :
    roundHalfEven x < k := by
  have h1 := roundHalfEven_le x
  have : (roundHalfEven x : ℚ) < (k : ℚ) := by linarith
  exact_mod_cast this

theorem rhe_sell_sl (k : ℤ) (hk : 25 ≤ k) :
    k < roundHalfEven (102 * (k : ℚ) / 100) := by
  rcases eq_or_lt_of_le hk with h | h
  · subst h
    norm_num [roundHalfEven]
  · apply lt_roundHalfEven_int
    have h26 : (26 : ℚ) ≤ (k : ℚ) := by exact_mod_cast h
    linarith

theorem rhe_sell_tg (k : ℤ) (hk : 13 ≤ k) :
    roundHalfEven (96 * (k : ℚ) / 100) < k := by
  apply roundHalfEven_lt_int
  have h13 : (13 : ℚ) ≤ (k : ℚ) := by exact_mod_cast hk
  linarith

theorem rhe_buy_sl (k : ℤ) (hk : 25 ≤ k) :
    roundHalfEven (98 * (k : ℚ) / 100) < k := by
  rcases eq_or_lt_of_le hk with h | h
  · subst h
    norm_num [roundHalfEven]
  · apply roundHalfEven_lt_int
    have h26 : (26 : ℚ) ≤ (k : ℚ) := by exact_mod_cast h
    linarith

theorem rhe_buy_tg (k : ℤ) (hk : 13 ≤ k) :
    k < roundHalfEven (104 * (k : ℚ) / 100) := by
  apply lt_roundHalfEven_int
  have h13 : (13 : ℚ) ≤ (k : ℚ) := by exact_mod_cast hk
  linarith

/-- The two Sell levels bracket the rounded price once it is ≥ 0.25. -/
theorem sell_levels (c : ℚ) (hc : (1/4 : ℚ) ≤ roundQ2 c) :
    roundQ2 (roundQ2 c * (96/100)) < roundQ2 c ∧
    roundQ2 c < roundQ2 (roundQ2 c * (102/100)) := by
  unfold roundQ2 at *
  set k := roundHalfEven (c * 100) with hkdef
  have hk : 25 ≤ k := by
    have h25 : (25 : ℚ) ≤ (k : ℚ) := by linarith
    exact_mod_cast h25
  constructor
  · rw [show ((k : ℚ)/100 * (96/100) * 100) = 96 * (k : ℚ) / 100 by ring]
    have h := rhe_sell_tg k (by omega)
    have hq : (roundHalfEven (96 * (k : ℚ) / 100) : ℚ) < (k : ℚ) := by
      exact_mod_cast h
    linarith
  · rw [show ((k : ℚ)/100 * (102/100) * 100) = 102 * (k : ℚ) / 100 by ring]
    have h := rhe_sell_sl k hk
    have hq : (k : ℚ) < (roundHalfEven (102 * (k : ℚ) / 100) : ℚ) := by
      exact_mod_cast h
    linarith

/-- The two Buy levels bracket the rounded price once it is ≥ 0.25. -/
theorem buy_levels (c : ℚ) (hc : (1/4 : ℚ) ≤ roundQ2 c) :
    roundQ2 (roundQ2 c * (98/100)) < roundQ2 c ∧
    roundQ2 c < roundQ2 (roundQ2 c * (104/100)) := by
  unfold roundQ2 at *
  set k := roundHalfEven (c * 100) with hkdef
  have hk : 25 ≤ k := by
    have h25 : (25 : ℚ) ≤ (k : ℚ) := by linarith
    exact_mod_cast h25
  constructor
  · rw [show ((k : ℚ)/100 * (98/100) * 100) = 98 * (k : ℚ) / 100 by ring]
    have h := rhe_buy_sl k hk
    have hq : (roundHalfEven (98 * (k : ℚ) / 100) : ℚ) < (k : ℚ) := by
      exact_mod_cast h
    linarith
  · rw [show ((k : ℚ)/100 * (104/100) * 100) = 104 * (k : ℚ) / 100 by ring]
    have h := rhe_buy_tg k (by omega)
    have hq : (k : ℚ) < (roundHalfEven (104 * (k : ℚ) / 100) : ℚ) := by
      exact_mod_cast h
    linarith

/-! ### Claim C1: equality tolerance in the classification rule -/

/-- C1 (counterexample): for the bar with open = 100.005, high = 100 we
have |open − high| ≤ 0.01 and open ≠ high, yet the classifier returns
Neutral, not Sell: the claimed ε = 0.01 tolerance does not exist. -/
theorem c1_counterexample :
    |(20001/200 : ℚ) - 100| ≤ 1/100 ∧ (20001/200 : ℚ) ≠ 100 ∧
    (analyze_stock_bar "X" ⟨20001/200, 100, 95, 98⟩).recommendation
      = "Neutral" ∧
    ("Neutral" : String) ≠ "Sell" := by
  refine ⟨by rw [abs_le]; constructor <;> norm_num, by norm_num, ?_,
    by decide⟩
  norm_num [analyze_stock_bar]

/-- C1 (amended): the classifier compares prices with exact equality
(tolerance ε = 0): rule 1 fires exactly when open = high, and rule 2
exactly when open ≠ high and open = low. -/
theorem c1_exact_equality (sym : String) (b : Bar) :
    ((analyze_stock_bar sym b).recommendation = "Sell" ↔ b.Open = b.High) ∧
    ((analyze_stock_bar sym b).recommendation = "Buy" ↔
      (¬ b.Open = b.High ∧ b.Open = b.Low)) := by
  unfold analyze_stock_bar
  split_ifs with h1 h2 <;> simp_all

/-! ### Claim C2: which close the levels are computed from -/

/-- C2 (counterexample): for the flat Sell bar with close = 9.7951 the
source computes stopLoss = 10.00 (from the rounded current price 9.80),
while the spec's formula round(close · 1.02, 2) gives 9.99. -/
theorem c2_counterexample :
    (analyze_stock_bar "X"
        ⟨97951/10000, 97951/10000, 97951/10000, 97951/10000⟩).recommendation
      = "Sell" ∧
    (analyze_stock_bar "X"
        ⟨97951/10000, 97951/10000, 97951/10000, 97951/10000⟩).stop_loss
      = some (10 : ℚ) ∧
    spec_sell_stop_loss (97951/10000) = 999/100 ∧
    (10 : ℚ) ≠ 999/100 ∧
    (analyze_stock_bar "X"
        ⟨97951/10000, 97951/10000, 97951/10000, 97951/10000⟩).target
      = some (941/100 : ℚ) ∧
    spec_sell_target (97951/10000) = 940/100 ∧
    (941/100 : ℚ) ≠ 940/100 := by
  refine ⟨?_, ?_, ?_, by norm_num, ?_, ?_, by norm_num⟩ <;>
    norm_num [analyze_stock_bar, spec_sell_stop_loss, spec_sell_target,
      roundQ2, roundHalfEven]

/-- C2 (amended): currentPrice = round(close, 2) holds, but the levels are
functions of the already-rounded current price, not of the raw close: two
bars whose closes round to the same current price get identical levels in
matching branches. -/
theorem c2_levels_from_rounded_price (sym sym' : String) (b b' : Bar)
    (h : roundQ2 b.Close = roundQ2 b'.Close) :
    (analyze_stock_bar sym b).current_price = roundQ2 b.Close ∧
    (b.Open = b.High → b'.Open = b'.High →
      (analyze_stock_bar sym b).stop_loss
        = (analyze_stock_bar sym' b').stop_loss ∧
      (analyze_stock_bar sym b).target
        = (analyze_stock_bar sym' b').target) := by
  constructor
  · unfold analyze_stock_bar
    split_ifs <;> rfl
  · intro hb hb'
    unfold analyze_stock_bar
    rw [if_pos hb, if_pos hb']
    rw [h]
    exact ⟨rfl, rfl⟩

/-- C2 (witness): two Sell bars with equal rounded closes get equal
levels, and the current price is the rounded close. -/
theorem c2_witness :
    (analyze_stock_bar "X" ⟨1, 1, 2, 1⟩).current_price = roundQ2 (1 : ℚ) ∧
    ((analyze_stock_bar "X" ⟨1, 1, 2, 1⟩).stop_loss
        = (analyze_stock_bar "Y" ⟨5, 5, 9, 1⟩).stop_loss ∧
      (analyze_stock_bar "X" ⟨1, 1, 2, 1⟩).target
        = (analyze_stock_bar "Y" ⟨5, 5, 9, 1⟩).target) :=
  ⟨(c2_levels_from_rounded_price "X" "Y" ⟨1, 1, 2, 1⟩ ⟨5, 5, 9, 1⟩ rfl).1,
   (c2_levels_from_rounded_price "X" "Y" ⟨1, 1, 2, 1⟩ ⟨5, 5, 9, 1⟩ rfl).2
     rfl rfl⟩

/-! ### Claim C6: recommendation range and level presence -/

/-- C6: every classified bar gets a recommendation in
{Buy, Sell, Neutral}, and the stop loss is present iff the target is
present iff the recommendation is not Neutral. -/
theorem c6_signal_invariant (sym : String) (b : Bar) :
    ((analyze_stock_bar sym b).recommendation = "Buy" ∨
      (analyze_stock_bar sym b).recommendation = "Sell" ∨
      (analyze_stock_bar sym b).recommendation = "Neutral") ∧
    ((analyze_stock_bar sym b).stop_loss.isSome
      ↔ (analyze_stock_bar sym b).target.isSome) ∧
    ((analyze_stock_bar sym b).stop_loss.isSome
      ↔ (analyze_stock_bar sym b).recommendation ≠ "Neutral") := by
  unfold analyze_stock_bar
  split_ifs <;> simp

/-! ### Claim C7: levels bracket the current price -/

/-- C7 (counterexample): the flat Sell bar with all prices 0.10 has
stopLoss = round(0.10 · 1.02, 2) = 0.10 = currentPrice, so the strict
inequality stopLoss > currentPrice claimed for every Sell bar fails. -/
theorem c7_counterexample :
    (analyze_stock_bar "X" ⟨1/10, 1/10, 1/10, 1/10⟩).recommendation
      = "Sell" ∧
    (analyze_stock_bar "X" ⟨1/10, 1/10, 1/10, 1/10⟩).stop_loss
      = some (1/10 : ℚ) ∧
    (analyze_stock_bar "X" ⟨1/10, 1/10, 1/10, 1/10⟩).current_price
      = (1/10 : ℚ) ∧
    ¬ ((1/10 : ℚ) < (1/10 : ℚ)) := by
  refine ⟨?_, ?_, ?_, by norm_num⟩ <;>
    norm_num [analyze_stock_bar, roundQ2, roundHalfEven]

/-- C7 (amended): provided the rounded close is at least 0.25, a Sell
signal satisfies target < currentPrice < stopLoss and a Buy signal
satisfies stopLoss < currentPrice < target (strictly, after rounding);
for smaller prices the rounding can collapse the strict inequalities. -/
theorem c7_levels_bracket_price (sym : String) (b : Bar)
    (hp : (1/4 : ℚ) ≤ roundQ2 b.Close) :
    ((analyze_stock_bar sym b).recommendation = "Sell" →
      (analyze_stock_bar sym b).target.getD 0
          < (analyze_stock_bar sym b).current_price ∧
      (analyze_stock_bar sym b).current_price
          < (analyze_stock_bar sym b).stop_loss.getD 0) ∧
    ((analyze_stock_bar sym b).recommendation = "Buy" →
      (analyze_stock_bar sym b).stop_loss.getD 0
          < (analyze_stock_bar sym b).current_price ∧
      (analyze_stock_bar sym b).current_price
          < (analyze_stock_bar sym b).target.getD 0) := by
  unfold analyze_stock_bar
  split_ifs with h1 h2
  · exact ⟨fun _ => by
      simpa using sell_levels b.Close hp, fun hc => by simp at hc⟩
  · exact ⟨fun hc => by simp at hc, fun _ => by
      simpa using buy_levels b.Close hp⟩
  · exact ⟨fun hc => by simp at hc, fun hc => by simp at hc⟩

/-- C7 (witness): for the flat Sell bar at price 1 the levels strictly
bracket the current price. -/
theorem c7_witness :
    (analyze_stock_bar "X" ⟨1, 1, 1, 1⟩).target.getD 0
        < (analyze_stock_bar "X" ⟨1, 1, 1, 1⟩).current_price ∧
    (analyze_stock_bar "X" ⟨1, 1, 1, 1⟩).current_price
        < (analyze_stock_bar "X" ⟨1, 1, 1, 1⟩).stop_loss.getD 0 :=
  (c7_levels_bracket_price "X" ⟨1, 1, 1, 1⟩
      (by norm_num [roundQ2, roundHalfEven])).1
    (by norm_num [analyze_stock_bar])

/-! ### Claim C8: rule order and the flat-bar tie-break -/

/-- C8: the rules are checked in fixed order with rule 1 first, so any bar
with open = high — in particular the degenerate flat bar
{open:100, high:100, low:100, close:98} where rule 2 also holds — is
classified Sell. -/
theorem c8_tie_break (sym : String) (b : Bar) (h : b.Open = b.High) :
    (analyze_stock_bar sym b).recommendation = "Sell" ∧
    (analyze_stock_bar "X" ⟨100, 100, 100, 98⟩).recommendation = "Sell" := by
  constructor
  · unfold analyze_stock_bar
    rw [if_pos h]
  · norm_num [analyze_stock_bar]

/-- C8 (witness): the flat bar itself, through the tie-break theorem. -/
theorem c8_witness :
    (analyze_stock_bar "X" ⟨100, 100, 100, 98⟩).recommendation = "Sell" :=
  (c8_tie_break "X" ⟨100, 100, 100, 98⟩ rfl).2

/-! ### Claim C3: order of the chart price lines -/

/-- C3 (counterexample): for a signal with both levels present the first
drawing is the stop-loss line, not the current-price line, so the claimed
order [current, stopLoss, target] is wrong. -/
theorem c3_counterexample :
    (get_tradingview_url 100 (some 102) (some 96)).map PriceLine.text
      = ["SL: ", "Target: ", "Current: "] ∧
    (["SL: ", "Target: ", "Current: "] : List String)
      ≠ ["Current: ", "SL: ", "Target: "] := by
  constructor
  · rfl
  · decide

/-- C3 (amended): the drawings list has length 1 to 3 and fixed order
[stopLoss?, target?, current]: the stop-loss line if present, then the
target line if present, with the current-price line always last. -/
theorem c3_order_and_length (cp : ℚ) (sl tg : Option ℚ) :
    (1 ≤ (get_tradingview_url cp sl tg).length ∧
      (get_tradingview_url cp sl tg).length ≤ 3) ∧
    (get_tradingview_url cp sl tg).map PriceLine.text
      = ((if sl.isSome then ["SL: "] else []) ++
          (if tg.isSome then ["Target: "] else []) ++ ["Current: "]) ∧
    (get_tradingview_url cp sl tg).getLast?
      = some ⟨cp, "#0000FF", 0, 1, "Current: "⟩ := by
  cases sl <;> cases tg <;> simp [get_tradingview_url]

/-! ### Claim C4: aggregation invariant over the universe -/

/-- Helper: the loop keeps exactly the symbols whose fetch succeeds. -/
theorem length_filterMap_analyze (fetch : String → Option Bar)
    (univ : List String) :
    (univ.filterMap (analyze_stock fetch)).length
      = univ.countP (fun sym => (fetch sym).isSome) := by
  induction univ with
  | nil => rfl
  | cons s t ih =>
    rw [List.filterMap_cons, List.countP_cons]
    cases h : fetch s <;> simp [analyze_stock, h, ih]

/-- C4 (counterexample): for the universe ["A", "B", "C"] where fetch
fails only for "B", the loop yields 2 signals and records no failure
entry at all, so signals.length + failures.length = 2 ≠ 3: the claimed
invariant fails because failed symbols are silently skipped. -/
theorem c4_counterexample :
    (main_report fetch3 ["A", "B", "C"]).signals.length = 2 ∧
    (main_report fetch3 ["A", "B", "C"]).failures.length = 0 ∧
    (main_report fetch3 ["A", "B", "C"]).signals.length
        + (main_report fetch3 ["A", "B", "C"]).failures.length ≠ 3 := by
  refine ⟨?_, rfl, ?_⟩ <;>
    simp [main_report, fetch3, analyze_stock, List.filterMap_cons]

/-- C4 (amended): the loop never terminates early — each head symbol
contributes its optional signal and the tail is still processed — but a
failing instrument is skipped with no `{symbol, reason}` record, so
signals.length + failures.length counts only the successful fetches. -/
theorem c4_report_shape (fetch : String → Option Bar) (univ : List String)
    (s : String) :
    (main_report fetch univ).failures = [] ∧
    ((main_report fetch univ).signals.length
        + (main_report fetch univ).failures.length
      = univ.countP (fun sym => (fetch sym).isSome)) ∧
    (main_report fetch (s :: univ)).signals
      = (analyze_stock fetch s).toList ++ (main_report fetch univ).signals := by
  refine ⟨rfl, ?_, ?_⟩
  · simp [main_report, length_filterMap_analyze]
  · cases h : analyze_stock fetch s <;>
      simp [main_report, List.filterMap_cons, h]

/-! ### Claim C5: all-failed outcome is distinct -/

/-- C5: when every fetch in the universe fails, `main` takes the distinct
early-return branch (`emptyUniverse`); when signals exist the outcome is
`completed` — even if the actionable subset is empty — which is a
different constructor from `emptyUniverse`. -/
theorem c5_empty_distinct (fetch : String → Option Bar)
    (univ : List String) :
    ((∀ s ∈ univ, fetch s = none) →
      main_run fetch univ = MainOutcome.emptyUniverse) ∧
    ((main_report fetch univ).signals ≠ [] →
      main_run fetch univ
          = MainOutcome.completed (main_report fetch univ) ∧
      main_run fetch univ ≠ MainOutcome.emptyUniverse) := by
  constructor
  · intro h
    have hnil : (main_report fetch univ).signals = [] := by
      simp only [main_report, List.filterMap_eq_nil_iff]
      intro s hs
      simp [analyze_stock, h s hs]
    simp [main_run, hnil]
  · intro h
    cases hsig : (main_report fetch univ).signals with
    | nil => exact absurd hsig h
    | cons a t =>
      constructor
      · simp [main_run, hsig]
      · simp [main_run, hsig]

/-- C5 (witness): a universe where every fetch fails lands in
`emptyUniverse`; a universe fetching one Neutral bar (empty actionable
subset) lands in `completed`, distinct from `emptyUniverse`. -/
theorem c5_witness :
    main_run (fun _ => none) ["A"] = MainOutcome.emptyUniverse ∧
    (main_run (fun _ => some ⟨97, 100, 95, 98⟩) ["A"]
        = MainOutcome.completed
            (main_report (fun _ => some ⟨97, 100, 95, 98⟩) ["A"]) ∧
      main_run (fun _ => some ⟨97, 100, 95, 98⟩) ["A"]
        ≠ MainOutcome.emptyUniverse) :=
  ⟨(c5_empty_distinct (fun _ => none) ["A"]).1 (fun _ _ => rfl),
   (c5_empty_distinct (fun _ => some ⟨97, 100, 95, 98⟩) ["A"]).2
     (by simp [main_report, analyze_stock])⟩

/-! ### Claim C9: no finiteness check, no AnalysisError -/

/-- C9 (counterexample): on a bar whose close is the non-finite value
`nan`, `analyze_stock` does not raise: it returns a Signal whose price
fields are `nan`, contradicting the claimed `AnalysisError`. -/
theorem c9_counterexample :
    analyze_stock_barF "X" ⟨.fin 100, .fin 100, .fin 95, PF.nan⟩
      = Except.ok
          { symbol := "X", current_price := PF.nan,
            recommendation := "Sell", stop_loss := some PF.nan,
            target := some PF.nan,
            condition := "Open=High (Bearish)" } ∧
    (analyze_stock_barF "X" ⟨.fin 100, .fin 100, .fin 95, PF.nan⟩).isOk
      = true := by
  constructor <;> rfl

/-- C9 (amended): the classifier contains no finiteness check and never
fails: for every bar, finite or not, it returns `ok` with
currentPrice = round(close, 2), which propagates a non-finite close. -/
theorem c9_no_analysis_error (sym : String) (b : BarF) :
    (analyze_stock_barF sym b).isOk = true ∧
    (analyze_stock_barF sym b).map SignalF.current_price
      = Except.ok (roundPF2 b.Close) := by
  unfold analyze_stock_barF
  split_ifs <;> exact ⟨rfl, rfl⟩

/-! ### Claim C10: fetch totality and failure collapsing -/

/-- C10: `get_stock_data` is total for the caller: it returns the last
(most recent) bar of a non-empty history, `none` for an empty history,
and `none` when the upstream raised — and the two failure causes produce
the same `none`, so the caller cannot distinguish them. -/
theorem c10_fetch_total (e : String) (l : List Bar) (b : Bar) :
    get_stock_data (Except.error e) = none ∧
    get_stock_data (Except.ok ([] : List Bar)) = none ∧
    get_stock_data (Except.ok (l ++ [b])) = some b ∧
    get_stock_data (Except.error e)
      = get_stock_data (Except.ok ([] : List Bar)) := by
  refine ⟨rfl, rfl, ?_, rfl⟩
  simp [get_stock_data]

end StockApp
